import Mathlib

/-!
Shallow embedding of `src/src/v/raft/replicate_entries_stm.cc` (Redpanda,
leader-side single-round replication state machine).

Offsets (`model::offset`) and terms (`model::term_id`) are 64-bit signed
integers in the source; they are modelled as `Int` (no arithmetic in the
modelled code can overflow: the code only compares and copies them, and
takes one `max`).  Node ids (`vnode`) are modelled as `Nat`.  Futures are
flattened: each `co_await`ed external outcome (disk append, flush, RPC,
unit acquisition, condition-variable wait) becomes an explicit parameter
of the modelled function, and the sequential continuation chain becomes
ordinary sequential code.  A `vassert` (fatal invariant violation) is
modelled as a distinguished `fatal` outcome / `Option.none`.
-/

namespace Raft

/-- Error codes of `raft::errc` used by `replicate_entries_stm.cc`, plus the
target-node-mismatch error produced by `validate_reply_target_node`. -/
inductive Errc where
  | success
  | leader_append_failed
  | leader_flush_failed
  | append_entries_dispatch_error
  | replicated_entry_truncated
  | shutting_down
  | invalid_target_node
  deriving DecidableEq, Repr

/-- Reply status of an `append_entries_reply` (`reply_result` in the source;
only `success` is produced by this file's code, the rest arrive from peers). -/
inductive ReplyResult where
  | success
  | failure
  | group_unavailable
  | timeout
  deriving DecidableEq, Repr

/-- Result of `consensus::disk_append` (`storage::append_result`); the STM
reads `last_offset` and `last_term`. -/
structure StorageAppendResult where
  last_offset : Int
  last_term : Int
  deriving DecidableEq, Repr

/-- The `replicate_result` returned to the caller. -/
structure ReplicateResult where
  last_offset : Int
  deriving DecidableEq, Repr

/-- The `append_entries_reply` fields the STM reads or writes. -/
structure AppendEntriesReply where
  node_id : Nat
  target_node_id : Nat
  group : Nat
  term : Int
  last_dirty_log_index : Int
  last_flushed_log_index : Int
  result : ReplyResult
  deriving DecidableEq, Repr

/-- The slice of the protocol metadata header (`_meta`) that the modelled
code reads: `should_skip_follower_request` compares `prev_log_index`
against the follower's expected log end offset.  The remaining header
fields are carried opaquely by the request and never inspected here. -/
structure ProtocolMeta where
  prev_log_index : Int
  deriving DecidableEq, Repr

/-- `consistency_level` written into `_last_write_consistency_level`. -/
inductive ConsistencyLevel where
  | quorum_ack
  | leader_ack
  | no_ack
  deriving DecidableEq, Repr

/-- Per-follower bookkeeping (`follower_index_metadata`) read and written by
the STM: learner flag, liveness timestamp, expected log end offset, and the
protocol metadata of the last request sent. -/
structure FollowerMeta where
  is_learner : Bool
  last_received_reply_timestamp : Int
  expected_log_end_offset : Int
  last_sent_protocol_meta : Option ProtocolMeta
  deriving DecidableEq, Repr

/-- The slice of the outer `consensus` collaborator state (`_ptr`) that the
STM reads or writes.  `logTermAt` models `_log->get_term(offset)`; `now`
models `clock_type::now()` at the moment the modelled step runs.  The
fields of this record are read at their values at that moment. -/
structure ConsensusState where
  self : Nat
  group : Nat
  term : Int
  commit_index : Int
  last_quorum_replicated_index : Int
  visibility_upper_bound_index : Int
  last_write_consistency_level : Option ConsistencyLevel
  majority_replicated_index_updated : Bool
  logTermAt : Int → Int
  now : Int
  replicate_append_timeout : Int
  fstats : List (Nat × FollowerMeta)

/-- The mutable state of one `replicate_entries_stm` instance.
`append_result` models `_append_result`: the header declaring it is not in
src; per the spec's data model ("append_result: outcome of the local
append; if absent/failed, no peer dispatch may occur") it is an optional
outcome, absent until `apply` records the self-append, and the guard
`!_append_result` used by `apply` and `wait_for_majority` holds when the
result is absent or failed. -/
structure ReplicateState where
  meta : ProtocolMeta
  is_flush_required : Bool
  followers_seq : List (Nat × Nat)
  dirty_offset : Int
  initial_committed_offset : Int
  append_result : Option (Except Errc StorageAppendResult)
  deriving Repr

/-- Modelled from the spec: `follower_index_metadata::is_first_request` is
declared in a header not under src; per the spec a first request is one
with "no prior sequence number", i.e. the per-follower sequence is still
at its initial value zero. -/
def is_first_request (seq : Nat) : Bool :=
  seq == 0

/-- `replicate_entries_stm::should_skip_follower_request`.  Returns
`none` when the `vassert` on the follower-sequence lookup fires (peer in
the stats table but absent from `_followers_seq`), otherwise
`some skip`.  A peer absent from the stats table falls through to the
final `return false`: it is sent, not skipped. -/
def should_skip_follower_request (st : ConsensusState) (rs : ReplicateState)
    (id : Nat) : Option Bool :=
  match st.fstats.lookup id with
  | none => some false
  | some fMeta =>
    match rs.followers_seq.lookup id with
    | none => none
    | some seq =>
      if !fMeta.is_learner && is_first_request seq then
        some false
      else if fMeta.last_received_reply_timestamp
          < st.now - st.replicate_append_timeout then
        some true
      else if fMeta.expected_log_end_offset ≠ rs.meta.prev_log_index then
        some true
      else
        some false

/-- Outcome of a call that either returns a `result<replicate_result>` or
dies on a `vassert`. -/
inductive ProcResult where
  | fatal
  | err (e : Errc)
  | ok (r : ReplicateResult)
  deriving DecidableEq, Repr

/-- `replicate_entries_stm::build_replicate_result`: asserts the append
result was recorded (fatal otherwise), propagates its error, or wraps its
`last_offset`. -/
def build_replicate_result
    (appendResult : Option (Except Errc StorageAppendResult)) : ProcResult :=
  match appendResult with
  | none => ProcResult.fatal
  | some (Except.error e) => ProcResult.err e
  | some (Except.ok ar) => ProcResult.ok { last_offset := ar.last_offset }

/-- The `stop_cond` closure of `replicate_entries_stm::wait_for_majority`:
the commit-index wait finishes when the entry is committed, or when the
term changed, the commit index advanced past its initial snapshot, and the
log term at the appended offset no longer matches the appended term. -/
def stop_cond (st : ConsensusState) (initialCommitted appendedOffset : Int)
    (appendedTerm : Int) : Bool :=
  let committed := decide (st.commit_index ≥ appendedOffset)
  let truncated := decide (st.term > appendedTerm)
    && decide (st.commit_index > initialCommitted)
    && decide (st.logTermAt appendedOffset ≠ appendedTerm)
  committed || truncated

/-- `replicate_entries_stm::process_result`: if the term changed, re-read
the log term at the appended offset and report truncation when it no
longer matches; then assert `appended_offset ≤ _commit_index` (fatal when
violated) and build the caller's result. -/
def process_result (st : ConsensusState) (rs : ReplicateState)
    (appendedOffset : Int) (appendedTerm : Int) : ProcResult :=
  if appendedTerm ≠ st.term then
    if st.logTermAt appendedOffset ≠ appendedTerm then
      ProcResult.err Errc.replicated_entry_truncated
    else if appendedOffset ≤ st.commit_index then
      build_replicate_result rs.append_result
    else
      ProcResult.fatal
  else if appendedOffset ≤ st.commit_index then
    build_replicate_result rs.append_result
  else
    ProcResult.fatal

/-- `replicate_entries_stm::wait_for_majority`.  `st` is the consensus
state at the moment the condition-variable wait resolves (the code
guarantees `stop_cond st` then, which theorems take as a hypothesis);
`cvBroken` is true when the wait ends in `broken_condition_variable`
(shutdown).  With the append result absent or failed the function returns
`build_replicate_result` before ever waiting. -/
def wait_for_majority (rs : ReplicateState) (st : ConsensusState)
    (cvBroken : Bool) : ProcResult :=
  match rs.append_result with
  | none => build_replicate_result none
  | some (Except.error e) => build_replicate_result (some (Except.error e))
  | some (Except.ok ar) =>
    if cvBroken then
      ProcResult.err Errc.shutting_down
    else
      process_result st rs ar.last_offset ar.last_term

/-- Observable events of `replicate_entries_stm::flush_log`, in real-time
order.  The flush (when required) is started first; the `_dispatch_sem`
signal then runs synchronously, with no suspension point in between, so it
precedes the asynchronous completion of the flush; the returned future
resolves with the reply (or error) after the flush completes. -/
inductive FlushEvent where
  | flushStart
  | dispatchSemSignal
  | flushComplete
  | futureResolve
  deriving BEq, DecidableEq, Repr

/-- `replicate_entries_stm::flush_log`, the leader's own "peer slot".
`flushFails` is true when the awaited flush (or the continuation chain)
throws; with no flush required nothing in the chain can throw.  Returns
the event trace and the synthesised reply: on success both log indices are
`_dirty_offset` and the reply names the leader as both source and target. -/
def flush_log (rs : ReplicateState) (st : ConsensusState)
    (flushFails : Bool) : List FlushEvent × Except Errc AppendEntriesReply :=
  let events :=
    if rs.is_flush_required then
      [FlushEvent.flushStart, FlushEvent.dispatchSemSignal,
        FlushEvent.flushComplete, FlushEvent.futureResolve]
    else
      [FlushEvent.dispatchSemSignal, FlushEvent.futureResolve]
  let res : Except Errc AppendEntriesReply :=
    if rs.is_flush_required && flushFails then
      Except.error Errc.leader_flush_failed
    else
      Except.ok
        { node_id := st.self
          target_node_id := st.self
          group := st.group
          term := st.term
          last_dirty_log_index := rs.dirty_offset
          last_flushed_log_index := rs.dirty_offset
          result := ReplyResult.success }
  (events, res)

/-- Modelled from the spec: `consensus::validate_reply_target_node` lives in
consensus code not under src; per the spec it "returns the reply unchanged
or a target-mismatch error" when the reply's `target_node_id` differs from
the expected peer. -/
def validate_reply_target_node (expected : Nat)
    (r : Except Errc AppendEntriesReply) : Except Errc AppendEntriesReply :=
  match r with
  | Except.error e => Except.error e
  | Except.ok reply =>
    if reply.target_node_id ≠ expected then
      Except.error Errc.invalid_target_node
    else
      Except.ok reply

/-- How one remote `send_append_entries_request` run resolves: the
per-follower append-entries unit acquisition fails; the RPC future chain
throws; or the RPC yields a `result<append_entries_reply>` (possibly an
error code, which passes through `handle_exception` untouched). -/
inductive RemoteOutcome where
  | unitAcquireFailed
  | rpcThrew
  | rpcReply (r : Except Errc AppendEntriesReply)

/-- Observable effects of one remote dispatch: how many times
`_dispatch_sem` was signalled, whether the peer's heartbeat guard was
released (the outer `finally`), whether the per-peer append-entries units
were returned (the inner `finally`), and the produced result. -/
structure DispatchEffects where
  semSignals : Nat
  hbGuardReleased : Bool
  unitsReturned : Bool
  result : Except Errc AppendEntriesReply

/-- `replicate_entries_stm::send_append_entries_request` for a remote peer
`n`.  The `then_wrapped` continuation installs a scoped (`defer`) signal of
`_dispatch_sem` before examining the unit-acquisition future, so every
path signals exactly once: a failed acquisition yields
`append_entries_dispatch_error`; an RPC exception is converted to the same
error by `handle_exception`; a delivered reply is validated against the
target node.  The outer `finally` releases the heartbeat guard on every
path; the inner `finally` returns the units whenever they were acquired. -/
def send_append_entries_request (n : Nat) (oc : RemoteOutcome) :
    DispatchEffects :=
  match oc with
  | RemoteOutcome.unitAcquireFailed =>
    { semSignals := 1
      hbGuardReleased := true
      unitsReturned := false
      result := Except.error Errc.append_entries_dispatch_error }
  | RemoteOutcome.rpcThrew =>
    { semSignals := 1
      hbGuardReleased := true
      unitsReturned := true
      result := Except.error Errc.append_entries_dispatch_error }
  | RemoteOutcome.rpcReply r =>
    { semSignals := 1
      hbGuardReleased := true
      unitsReturned := true
      result := validate_reply_target_node n r }

/-- Number of `_dispatch_sem` signals produced by
`replicate_entries_stm::dispatch_single_retry` for peer `id`: the leader's
own slot runs `flush_log` (count its trace's signals), every other peer
runs `send_append_entries_request`. -/
def dispatch_single_retry_sem_signals (rs : ReplicateState)
    (st : ConsensusState) (id : Nat) (flushFails : Bool)
    (oc : RemoteOutcome) : Nat :=
  if id = st.self then
    (flush_log rs st flushFails).1.count FlushEvent.dispatchSemSignal
  else
    (send_append_entries_request id oc).semSignals

/-- `replicate_entries_stm::append_to_self`.  The consistency level is
written to the consensus state first, then `disk_append` runs
(`diskAppend` is its outcome, `Except.error` standing for any exception);
on success the visibility upper bound is advanced (and the majority
replicated index re-evaluated) when the commit index has caught up with
the last quorum-replicated index; any failure becomes
`leader_append_failed`.  The consensus fields of `st` are read at their
post-`disk_append` values. -/
def append_to_self (rs : ReplicateState) (st : ConsensusState)
    (diskAppend : Except Unit StorageAppendResult) :
    ConsensusState × Except Errc StorageAppendResult :=
  let level :=
    if rs.is_flush_required then ConsistencyLevel.quorum_ack
    else ConsistencyLevel.leader_ack
  let st1 := { st with last_write_consistency_level := some level }
  match diskAppend with
  | Except.error _ => (st1, Except.error Errc.leader_append_failed)
  | Except.ok res =>
    if st1.commit_index ≥ st1.last_quorum_replicated_index then
      ({ st1 with
          visibility_upper_bound_index :=
            max st1.visibility_upper_bound_index res.last_offset
          majority_replicated_index_updated := true },
        Except.ok res)
    else
      (st1, Except.ok res)

/-- The per-voter follower-stats update performed by `apply` before
dispatching to a non-self peer that is present in the stats table:
`expected_log_end_offset := _dirty_offset` and
`last_sent_protocol_meta := _meta`. -/
def update_follower_dispatch_meta (st : ConsensusState) (id : Nat)
    (dirty : Int) (m : ProtocolMeta) : ConsensusState :=
  { st with fstats := st.fstats.map (fun p =>
      if p.1 == id then
        (p.1, { p.2 with
          expected_log_end_offset := dirty
          last_sent_protocol_meta := some m })
      else p) }

/-- The dispatch loop of `apply` over the configuration's voters: each
skipped peer releases its heartbeat guard and contributes nothing; each
dispatched peer updates its stats entry (non-self peers only), increments
`_requests_count` and gets a background `dispatch_one` task.  Returns the
final consensus state, the dispatched peers in order, and
`_requests_count`; `none` when `should_skip_follower_request` hits its
follower-sequence `vassert`. -/
def dispatch_loop (rs : ReplicateState) :
    ConsensusState → List Nat → Option (ConsensusState × List Nat × Nat)
  | st, [] => some (st, [], 0)
  | st, rni :: rest =>
    match should_skip_follower_request st rs rni with
    | none => none
    | some true => dispatch_loop rs st rest
    | some false =>
      let st1 :=
        if rni ≠ st.self then
          update_follower_dispatch_meta st rni rs.dirty_offset rs.meta
        else st
      match dispatch_loop rs st1 rest with
      | none => none
      | some (st2, ds, n) => some (st2, rni :: ds, n + 1)

/-- What `replicate_entries_stm::apply` leaves behind: the consensus
state, the STM state, the peers for which a dispatch task was started,
`_requests_count`, and the result returned to the caller. -/
structure ApplyResult where
  st : ConsensusState
  rs : ReplicateState
  dispatched : List Nat
  requestsCount : Nat
  result : ProcResult

/-- `replicate_entries_stm::apply`: record the self-append outcome; if it
is absent/failed, return `build_replicate_result` at once — no voter is
visited, no dispatch task starts, `_dirty_offset` stays untouched.
Otherwise publish `_dirty_offset`, snapshot `_initial_committed_offset`,
run the dispatch loop over the voters, and return the built result.
`none` models the loop dying on a `vassert`. -/
def apply (rs : ReplicateState) (st : ConsensusState) (voters : List Nat)
    (diskAppend : Except Unit StorageAppendResult) : Option ApplyResult :=
  let stepped := append_to_self rs st diskAppend
  let rs1 := { rs with append_result := some stepped.2 }
  match stepped.2 with
  | Except.error _ =>
    some { st := stepped.1, rs := rs1, dispatched := [], requestsCount := 0
           result := build_replicate_result rs1.append_result }
  | Except.ok res =>
    let rs2 := { rs1 with
      dirty_offset := res.last_offset
      initial_committed_offset := stepped.1.commit_index }
    match dispatch_loop rs2 stepped.1 voters with
    | none => none
    | some (st2, ds, n) =>
      some { st := st2, rs := rs2, dispatched := ds, requestsCount := n
             result := build_replicate_result rs2.append_result }

/-! Concrete sample states used by the witnesses and counterexamples. -/

/-- A successful self-append ending at offset 5, term 3. -/
def okAppendResult : StorageAppendResult :=
  { last_offset := 5, last_term := 3 }

/-- A leader state whose commit index has reached the appended offset. -/
def okSt : ConsensusState :=
  { self := 1, group := 9, term := 3, commit_index := 5
    last_quorum_replicated_index := 0, visibility_upper_bound_index := 0
    last_write_consistency_level := none
    majority_replicated_index_updated := false
    logTermAt := fun _ => 3
    now := 100, replicate_append_timeout := 10, fstats := [] }

/-- An STM state that recorded the successful self-append `okAppendResult`. -/
def okRs : ReplicateState :=
  { meta := { prev_log_index := 4 }, is_flush_required := true
    followers_seq := [], dirty_offset := 5, initial_committed_offset := 0
    append_result := some (Except.ok okAppendResult) }

/-- A follower-stats table holding one learner whose last reply is stale. -/
def c2St : ConsensusState :=
  { self := 1, group := 9, term := 3, commit_index := 0
    last_quorum_replicated_index := 0, visibility_upper_bound_index := 0
    last_write_consistency_level := none
    majority_replicated_index_updated := false
    logTermAt := fun _ => 3
    now := 100, replicate_append_timeout := 10
    fstats := [(2, { is_learner := true, last_received_reply_timestamp := 0
                     expected_log_end_offset := 5
                     last_sent_protocol_meta := none })] }

/-- An STM round whose request starts at `prev_log_index = 5`, with peer 2
on its first request; no self-append recorded yet. -/
def c2Rs : ReplicateState :=
  { meta := { prev_log_index := 5 }, is_flush_required := false
    followers_seq := [(2, 0)], dirty_offset := 0
    initial_committed_offset := 0, append_result := none }

/-- A follower-stats table holding one fresh, in-sync non-learner voter on
its first request, number 3, whose liveness and offset checks would both
fail. -/
def c2wSt : ConsensusState :=
  { c2St with fstats :=
      [(3, { is_learner := false, last_received_reply_timestamp := 0
             expected_log_end_offset := 99
             last_sent_protocol_meta := none })] }

/-- The matching STM round: peer 3 is on its first request. -/
def c2wRs : ReplicateState :=
  { c2Rs with followers_seq := [(3, 0)] }

/-- A leader state with an empty follower-stats table. -/
def c3St : ConsensusState :=
  { c2St with fstats := [] }

/-- A follower-stats table with voter 4 alive and exactly at
`prev_log_index`, past its first request. -/
def c3wSt : ConsensusState :=
  { c2St with fstats :=
      [(4, { is_learner := false, last_received_reply_timestamp := 95
             expected_log_end_offset := 5
             last_sent_protocol_meta := none })] }

/-- The matching STM round: peer 4 is on request sequence 1. -/
def c3wRs : ReplicateState :=
  { c2Rs with followers_seq := [(4, 1)] }

/-- Scenario: entry appended at term 5, offset 100; by wake-up time the
term is 7 and the log term at offset 100 reads 7. -/
def c7St : ConsensusState :=
  { self := 1, group := 9, term := 7, commit_index := 0
    last_quorum_replicated_index := 0, visibility_upper_bound_index := 0
    last_write_consistency_level := none
    majority_replicated_index_updated := false
    logTermAt := fun _ => 7
    now := 100, replicate_append_timeout := 10, fstats := [] }

/-- The matching STM state: self-append recorded offset 100 at term 5,
with the initial committed-offset snapshot at -1. -/
def c7Rs : ReplicateState :=
  { meta := { prev_log_index := 99 }, is_flush_required := true
    followers_seq := [], dirty_offset := 100
    initial_committed_offset := -1
    append_result := some (Except.ok { last_offset := 100, last_term := 5 }) }

/-! The claims. -/

/-- Claim C1: whenever the commit-wait predicate released the waiter and
`process_result` passes the term/truncation check, the assertion
`appended_offset ≤ _commit_index` holds (the `vassert` never fires), and
any success result reports a `last_offset` that is ≤ the commit index at
the moment of return. -/
theorem claim_C1 (st : ConsensusState) (rs : ReplicateState)
    (ar : StorageAppendResult)
    (h1 : rs.append_result = some (Except.ok ar))
    (h2 : stop_cond st rs.initial_committed_offset ar.last_offset
        ar.last_term = true) :
    process_result st rs ar.last_offset ar.last_term ≠ ProcResult.fatal
    ∧ ∀ r, process_result st rs ar.last_offset ar.last_term
        = ProcResult.ok r → r.last_offset ≤ st.commit_index := by
  have h3 : st.commit_index ≥ ar.last_offset
      ∨ (st.term > ar.last_term
          ∧ st.commit_index > rs.initial_committed_offset
          ∧ st.logTermAt ar.last_offset ≠ ar.last_term) := by
    have h4 := h2
    unfold stop_cond at h4
    simpa [and_assoc] using h4
  unfold process_result
  by_cases hne : ar.last_term ≠ st.term
  · rw [if_pos hne]
    by_cases hlog : st.logTermAt ar.last_offset ≠ ar.last_term
    · rw [if_pos hlog]
      refine ⟨by simp, ?_⟩
      intro r hr
      simp at hr
    · rw [if_neg hlog]
      have hcom : ar.last_offset ≤ st.commit_index := by
        rcases h3 with hcom | ⟨hgt, hci, hl⟩
        · exact hcom
        · exact absurd hl hlog
      rw [if_pos hcom, h1]
      refine ⟨by simp [build_replicate_result], ?_⟩
      intro r hr
      simp only [build_replicate_result, ProcResult.ok.injEq] at hr
      rw [← hr]
      exact hcom
  · rw [if_neg hne]
    have heq : ar.last_term = st.term := not_not.mp hne
    have hcom : ar.last_offset ≤ st.commit_index := by
      rcases h3 with hcom | ⟨hgt, hci, hl⟩
      · exact hcom
      · rw [heq] at hgt
        exact absurd hgt (lt_irrefl _)
    rw [if_pos hcom, h1]
    refine ⟨by simp [build_replicate_result], ?_⟩
    intro r hr
    simp only [build_replicate_result, ProcResult.ok.injEq] at hr
    rw [← hr]
    exact hcom

/-- Witness for C1 at a concrete round: appended offset 5 at term 3,
commit index 5, wait predicate satisfied, no fatal assertion. -/
theorem claim_C1_witness :
    stop_cond okSt okRs.initial_committed_offset 5 3 = true
    ∧ process_result okSt okRs 5 3 ≠ ProcResult.fatal :=
  ⟨by decide, (claim_C1 okSt okRs okAppendResult rfl (by decide)).1⟩

/-- Counterexample to claim C2 as stated: peer 2 is a learner present in
the follower-stats table (and even on its first request), yet
`should_skip_follower_request` returns true — the request is skipped
because the learner's last reply is stale, so the learner bypass claimed
by the spec does not exist. -/
theorem claim_C2_counterexample :
    (c2St.fstats.lookup 2).map FollowerMeta.is_learner = some true
    ∧ (c2Rs.followers_seq.lookup 2).map is_first_request = some true
    ∧ should_skip_follower_request c2St c2Rs 2 = some true := by
  decide

/-- Claim C2, amended: for a voter present in the follower-stats table,
only the combination "not a learner AND first request" bypasses the skip
checks — then `should_skip_follower_request` returns false and the request
is always sent; learners get no bypass and remain subject to the liveness
and log-end-offset checks. -/
theorem claim_C2 (st : ConsensusState) (rs : ReplicateState) (id : Nat)
    (fMeta : FollowerMeta) (seq : Nat)
    (h1 : st.fstats.lookup id = some fMeta)
    (h2 : rs.followers_seq.lookup id = some seq)
    (h3 : fMeta.is_learner = false)
    (h4 : is_first_request seq = true) :
    should_skip_follower_request st rs id = some false := by
  unfold should_skip_follower_request
  rw [h1, h2]
  simp [h3, h4]

/-- Witness for the amended C2: a non-learner on its first request is sent
even though both its liveness and its offset checks would fail. -/
theorem claim_C2_witness :
    should_skip_follower_request c2wSt c2wRs 3 = some false :=
  claim_C2 c2wSt c2wRs 3
    { is_learner := false, last_received_reply_timestamp := 0
      expected_log_end_offset := 99, last_sent_protocol_meta := none }
    0 rfl rfl rfl rfl

/-- Counterexample to claim C3 as stated: peer 7 is not in the
follower-stats table, yet `should_skip_follower_request` returns false —
the request is sent, not skipped (the function's final fallthrough returns
false; indeed the leader itself is never in the table and must be sent). -/
theorem claim_C3_counterexample :
    c3St.fstats.lookup 7 = none
    ∧ should_skip_follower_request c3St c2Rs 7 = some false := by
  decide

/-- Claim C3, amended: a peer that is not in the follower-stats table is
always sent (skip returns false); when the peer is in the table, the
request is likewise sent whenever the liveness check and the expected
log-end-offset check both pass. -/
theorem claim_C3 (st : ConsensusState) (rs : ReplicateState) (id : Nat) :
    (st.fstats.lookup id = none →
      should_skip_follower_request st rs id = some false)
    ∧ (∀ fMeta seq,
        st.fstats.lookup id = some fMeta →
        rs.followers_seq.lookup id = some seq →
        ¬ fMeta.last_received_reply_timestamp
            < st.now - st.replicate_append_timeout →
        fMeta.expected_log_end_offset = rs.meta.prev_log_index →
        should_skip_follower_request st rs id = some false) := by
  constructor
  · intro h
    unfold should_skip_follower_request
    rw [h]
  · intro fMeta seq h1 h2 h5 h6
    unfold should_skip_follower_request
    rw [h1, h2]
    by_cases hb : (!fMeta.is_learner && is_first_request seq) = true
    · simp [hb]
    · simp [hb, h5, h6]

/-- Witness for the amended C3: voter 4 is in the table, alive, and
exactly at `prev_log_index`, so it is sent. -/
theorem claim_C3_witness :
    should_skip_follower_request c3wSt c3wRs 4 = some false :=
  (claim_C3 c3wSt c3wRs 4).2
    { is_learner := false, last_received_reply_timestamp := 95
      expected_log_end_offset := 5, last_sent_protocol_meta := none }
    1 rfl rfl (by decide) rfl

/-- Claim C4: every scheduled dispatch — remote peer or the leader's own
flush slot — signals `_dispatch_sem` exactly once whatever its outcome,
and a failed pre-RPC unit acquisition still signals once and yields
`append_entries_dispatch_error`. -/
theorem claim_C4 (rs : ReplicateState) (st : ConsensusState) (id : Nat)
    (flushFails : Bool) (oc : RemoteOutcome) :
    dispatch_single_retry_sem_signals rs st id flushFails oc = 1
    ∧ (send_append_entries_request id
        RemoteOutcome.unitAcquireFailed).result
        = Except.error Errc.append_entries_dispatch_error
    ∧ (send_append_entries_request id
        RemoteOutcome.unitAcquireFailed).semSignals = 1 := by
  refine ⟨?_, rfl, rfl⟩
  unfold dispatch_single_retry_sem_signals
  by_cases h : id = st.self
  · rw [if_pos h]
    unfold flush_log
    cases rs.is_flush_required <;> rfl
  · rw [if_neg h]
    cases oc <;> rfl

/-- Claim C5: when the self-append fails, `apply` returns
`leader_append_failed` with no peer dispatched, zero `_requests_count`
(so no `_dispatch_sem` permits will be produced), `_dirty_offset`
untouched, and any subsequent `wait_for_majority` returns the same
self-append error immediately, waiting on nothing. -/
theorem claim_C5 (rs : ReplicateState) (st : ConsensusState)
    (voters : List Nat) :
    ∃ a : ApplyResult,
      apply rs st voters (Except.error ()) = some a
      ∧ a.result = ProcResult.err Errc.leader_append_failed
      ∧ a.dispatched = []
      ∧ a.requestsCount = 0
      ∧ a.rs.dirty_offset = rs.dirty_offset
      ∧ ∀ (st2 : ConsensusState) (b : Bool),
          wait_for_majority a.rs st2 b
            = ProcResult.err Errc.leader_append_failed := by
  refine ⟨_, rfl, rfl, rfl, rfl, rfl, fun st2 b => rfl⟩

/-- The commit-wait finishing predicate written exactly as the spec words
it: committed, or term advanced with commit progress and a changed log
term at the appended offset. -/
def spec_commit_wait_predicate (st : ConsensusState)
    (initialCommitted appendedOffset appendedTerm : Int) : Prop :=
  st.commit_index ≥ appendedOffset
  ∨ (st.term > appendedTerm
      ∧ st.commit_index > initialCommitted
      ∧ st.logTermAt appendedOffset ≠ appendedTerm)

/-- Claim C6: after a successful self-append the commit wait runs under
exactly the spec's committed-or-truncated predicate, and a broken
condition variable resolves the wait with `shutting_down`. -/
theorem claim_C6 (st : ConsensusState) (rs : ReplicateState)
    (ar : StorageAppendResult)
    (h1 : rs.append_result = some (Except.ok ar)) :
    (∀ initialCommitted appendedOffset appendedTerm : Int,
      stop_cond st initialCommitted appendedOffset appendedTerm = true
        ↔ spec_commit_wait_predicate st initialCommitted appendedOffset
            appendedTerm)
    ∧ wait_for_majority rs st true = ProcResult.err Errc.shutting_down := by
  constructor
  · intro i ao t
    unfold stop_cond spec_commit_wait_predicate
    simp [and_assoc]
  · unfold wait_for_majority
    rw [h1]
    rfl

/-- Witness for C6 at a concrete round: with the append recorded, a broken
condition variable yields `shutting_down`. -/
theorem claim_C6_witness :
    wait_for_majority okRs okSt true = ProcResult.err Errc.shutting_down :=
  (claim_C6 okSt okRs okAppendResult rfl).2

/-- Claim C7: when the term changed during the commit wait,
`wait_for_majority` returns `replicated_entry_truncated` exactly when the
re-read log term at the appended offset no longer matches the appended
term; when it still matches, the result is success carrying the appended
offset. -/
theorem claim_C7 (st : ConsensusState) (rs : ReplicateState)
    (ar : StorageAppendResult)
    (h1 : rs.append_result = some (Except.ok ar))
    (h2 : ar.last_term ≠ st.term)
    (h3 : stop_cond st rs.initial_committed_offset ar.last_offset
        ar.last_term = true) :
    (wait_for_majority rs st false
        = ProcResult.err Errc.replicated_entry_truncated
      ↔ st.logTermAt ar.last_offset ≠ ar.last_term)
    ∧ (st.logTermAt ar.last_offset = ar.last_term →
        wait_for_majority rs st false
          = ProcResult.ok { last_offset := ar.last_offset }) := by
  have h4 : st.commit_index ≥ ar.last_offset
      ∨ (st.term > ar.last_term
          ∧ st.commit_index > rs.initial_committed_offset
          ∧ st.logTermAt ar.last_offset ≠ ar.last_term) := by
    have h5 := h3
    unfold stop_cond at h5
    simpa [and_assoc] using h5
  have hw : wait_for_majority rs st false
      = process_result st rs ar.last_offset ar.last_term := by
    unfold wait_for_majority
    rw [h1]
    rfl
  rw [hw]
  unfold process_result
  rw [if_pos h2]
  by_cases hlog : st.logTermAt ar.last_offset ≠ ar.last_term
  · rw [if_pos hlog]
    refine ⟨⟨fun _ => hlog, fun _ => rfl⟩, ?_⟩
    intro heq
    exact absurd heq hlog
  · rw [if_neg hlog]
    have hcom : ar.last_offset ≤ st.commit_index := by
      rcases h4 with hcom | ⟨hgt, hci, hl⟩
      · exact hcom
      · exact absurd hl hlog
    rw [if_pos hcom, h1]
    refine ⟨?_, fun _ => rfl⟩
    constructor
    · intro hr
      simp [build_replicate_result] at hr
    · intro hl
      exact absurd hl hlog

/-- Witness for C7, the spec's scenario 5: appended at term 5, offset 100;
at wake-up the term is 7 and the log term at offset 100 is 7, so the wait
reports `replicated_entry_truncated`. -/
theorem claim_C7_witness :
    wait_for_majority c7Rs c7St false
      = ProcResult.err Errc.replicated_entry_truncated :=
  (claim_C7 c7St c7Rs { last_offset := 100, last_term := 5 } rfl
    (by decide) (by decide)).1.mpr (by decide)

/-- Claim C8: the leader's own slot flushes exactly when `flush_required`
is set; on success it synthesises a reply naming the leader as source and
target, with the group, the current term, both log indices equal to
`_dirty_offset`, and `success`; on flush failure it returns
`leader_flush_failed`; and the `_dispatch_sem` permit is signalled exactly
once, on entry to the step and before the flush completes. -/
theorem claim_C8 (rs : ReplicateState) (st : ConsensusState)
    (flushFails : Bool) :
    (FlushEvent.flushStart ∈ (flush_log rs st flushFails).1
      ↔ rs.is_flush_required = true)
    ∧ (flush_log rs st flushFails).1.count FlushEvent.dispatchSemSignal = 1
    ∧ (rs.is_flush_required = true →
        (flush_log rs st flushFails).1.indexOf FlushEvent.dispatchSemSignal
          < (flush_log rs st flushFails).1.indexOf FlushEvent.flushComplete)
    ∧ ((rs.is_flush_required && flushFails) = false →
        (flush_log rs st flushFails).2 = Except.ok
          { node_id := st.self, target_node_id := st.self
            group := st.group, term := st.term
            last_dirty_log_index := rs.dirty_offset
            last_flushed_log_index := rs.dirty_offset
            result := ReplyResult.success })
    ∧ (rs.is_flush_required = true → flushFails = true →
        (flush_log rs st flushFails).2
          = Except.error Errc.leader_flush_failed) := by
  unfold flush_log
  cases hf : rs.is_flush_required <;> cases hff : flushFails <;>
    simp <;> decide

/-- Witness for C8, matching the spec's scenario 1: a single-voter round
with `flush_required = true` and `dirty_offset = 5` synthesises the
leader's own success reply, and its permit precedes flush completion. -/
theorem claim_C8_witness :
    (flush_log okRs okSt false).2 = Except.ok
      { node_id := 1, target_node_id := 1, group := 9, term := 3
        last_dirty_log_index := 5, last_flushed_log_index := 5
        result := ReplyResult.success }
    ∧ (flush_log okRs okSt false).1.indexOf FlushEvent.dispatchSemSignal
        < (flush_log okRs okSt false).1.indexOf FlushEvent.flushComplete :=
  ⟨(claim_C8 okRs okSt false).2.2.2.1 (by decide),
    (claim_C8 okRs okSt false).2.2.1 (by decide)⟩

/-- Claim C9: `append_to_self` sets `_last_write_consistency_level`
(quorum-ack when flushing, leader-ack otherwise) before attempting the
disk append, so the field is updated even in rounds whose append fails and
whose `apply` returns `leader_append_failed`. -/
theorem claim_C9 (rs : ReplicateState) (st : ConsensusState)
    (diskAppend : Except Unit StorageAppendResult) :
    (append_to_self rs st diskAppend).1.last_write_consistency_level
      = some (if rs.is_flush_required then ConsistencyLevel.quorum_ack
              else ConsistencyLevel.leader_ack)
    ∧ ∀ voters : List Nat, ∃ a : ApplyResult,
        apply rs st voters (Except.error ()) = some a
        ∧ a.st.last_write_consistency_level
            = some (if rs.is_flush_required then ConsistencyLevel.quorum_ack
                    else ConsistencyLevel.leader_ack)
        ∧ a.result = ProcResult.err Errc.leader_append_failed := by
  constructor
  · unfold append_to_self
    cases diskAppend with
    | error e => rfl
    | ok res =>
      dsimp only
      split <;> rfl
  · intro voters
    exact ⟨_, rfl, rfl, rfl⟩

/-- Claim C10: calling `wait_for_majority` before `apply` recorded any
append result does not produce an error result — the `vassert` inside
`build_replicate_result` fires fatally. -/
theorem claim_C10 (rs : ReplicateState) (st : ConsensusState) (b : Bool)
    (h : rs.append_result = none) :
    wait_for_majority rs st b = ProcResult.fatal := by
  unfold wait_for_majority
  rw [h]
  rfl

/-- Witness for C10: on a round whose append result was never recorded,
the wait is fatal. -/
theorem claim_C10_witness :
    wait_for_majority c2Rs c2St true = ProcResult.fatal :=
  claim_C10 c2Rs c2St true rfl

end Raft
